import Mathlib

/-!
# TaskEx — verification of the offline-first sync / auth-cache layer

Shallow embedding of the TaskEx browser extension
(`task-calendar-extension/storage.js`, `task-calendar-extension/background.js`
and the side-panel script) together with proofs about the behaviour the
specification describes: the local key-value store wrapper, the saved-tab
(LinkHive) store, credential acquisition, the HTTP-status error mapping and
the side-panel session state machine.

JavaScript objects holding key/value maps (`chrome.storage.local`, the
grouped `savedTabs` object) are embedded as association lists over `String`
keys, `Promise` resolve/reject as `Except`, JS truthiness of strings as
emptiness tests, and DOM `innerHTML` assignments as an explicit view-state
type whose constructors correspond one-to-one to the string literals the
source assigns.
-/

namespace TaskEx

/-! ## JSON values

`chrome.storage.local` stores JSON-serializable values.  Numbers are embedded
as integers (the repository only ever stores strings, booleans and arrays of
strings, so no floating point behaviour is relied upon). -/

inductive JVal : Type where
  | null : JVal
  | bool (b : Bool) : JVal
  | num (n : Int) : JVal
  | str (s : String) : JVal
  | arr (xs : List JVal) : JVal
  | obj (kvs : List (String × JVal)) : JVal

/-! ## Association-list maps

JS object semantics used by the storage layer: reading a key, overwriting a
key in place, appending a fresh key at the end (JS property insertion order),
and deleting a key. -/

def lookupKV {α : Type} : List (String × α) → String → Option α
  | [], _ => none
  | (k, v) :: rest, key => if k = key then some v else lookupKV rest key

def setKV {α : Type} : List (String × α) → String → α → List (String × α)
  | [], key, v => [(key, v)]
  | (k, w) :: rest, key, v =>
      if k = key then (k, v) :: rest else (k, w) :: setKV rest key v

def removeKV {α : Type} : List (String × α) → String → List (String × α)
  | [], _ => []
  | (k, v) :: rest, key =>
      if k = key then rest else (k, v) :: removeKV rest key

def hasKV {α : Type} (l : List (String × α)) (key : String) : Bool :=
  (lookupKV l key).isSome

/-- JS `String.prototype.trim()`: whitespace stripped from both ends.
(Defined over the character list so that concrete instances evaluate.) -/
def jsTrim (s : String) : String :=
  String.mk
    (((s.toList.dropWhile Char.isWhitespace).reverse.dropWhile
        Char.isWhitespace).reverse)

/-- Prefix test for `strIncludes`. -/
def listHasPre (sub hay : List Char) : Bool :=
  match sub, hay with
  | [], _ => true
  | _ :: _, [] => false
  | a :: as, b :: bs => a = b && listHasPre as bs

/-- Contiguous-sublist test for `strIncludes`. -/
def listHasSub (sub hay : List Char) : Bool :=
  match hay with
  | [] => listHasPre sub []
  | _ :: bs => listHasPre sub hay || listHasSub sub bs

/-- JS `String.prototype.includes(sub)`. -/
def strIncludes (s sub : String) : Bool :=
  listHasSub sub.toList s.toList

theorem lookupKV_setKV_self {α : Type} (l : List (String × α)) (k : String) (v : α) :
    lookupKV (setKV l k v) k = some v := by
  induction l with
  | nil => simp [setKV, lookupKV]
  | cons hd tl ih =>
      obtain ⟨k', w⟩ := hd
      by_cases h : k' = k
      · simp [setKV, lookupKV, h]
      · simp [setKV, lookupKV, h, ih]

/-! ## `chrome.storage.local` and the STORAGE.JS wrappers

`storage.js` wraps `chrome.storage.local.get/set/remove` in promises that
reject when the platform reports `chrome.runtime.lastError`.  The platform
store is a key-value map plus a flag saying whether the platform is currently
reporting errors (`chrome.runtime.lastError` set after the operation). -/

structure ChromeStorage : Type where
  data : List (String × JVal)
  failing : Bool

/-- `chrome.storage.local.get(key)`: the result object contains the key only
when it is present in the store. -/
def chromeGet (st : ChromeStorage) (key : String) : List (String × JVal) :=
  match lookupKV st.data key with
  | some v => [(key, v)]
  | none => []

/-- `chrome.storage.local.set(data)`: merges every supplied key into the
store, overwriting existing entries. -/
def chromeSet (st : ChromeStorage) (kvs : List (String × JVal)) : ChromeStorage :=
  { st with data := kvs.foldl (fun acc kv => setKV acc kv.1 kv.2) st.data }

/-- `chrome.storage.local.remove(key)`. -/
def chromeRemove (st : ChromeStorage) (key : String) : ChromeStorage :=
  { st with data := removeKV st.data key }

/-- `getStorageData(keys)` (storage.js 31-42): resolves with the result, or
rejects with `chrome.runtime.lastError` when the platform reports one. -/
def getStorageData (st : ChromeStorage) (key : String) :
    Except String (List (String × JVal)) :=
  if st.failing then Except.error "Storage get error"
  else Except.ok (chromeGet st key)

/-- `setStorageData(data)` (storage.js 49-60): resolves with the updated
store, or rejects with `chrome.runtime.lastError`. -/
def setStorageData (st : ChromeStorage) (kvs : List (String × JVal)) :
    Except String ChromeStorage :=
  if st.failing then Except.error "Storage set error"
  else Except.ok (chromeSet st kvs)

/-- `removeStorageData(keys)` (storage.js 67-78). -/
def removeStorageData (st : ChromeStorage) (key : String) :
    Except String ChromeStorage :=
  if st.failing then Except.error "Storage remove error"
  else Except.ok (chromeRemove st key)

/-! ## Grouped saved-tab store (storage.js 88-194)

`savedTabs` is a JS object mapping a group name to a non-empty array of
saved-tab entries.  Embedded as an association list from group name to
`List TabEntry`. -/

structure TabEntry : Type where
  id : String
  title : String
  url : String
  note : String
  savedAt : String
  deriving DecidableEq, Repr

abbrev SavedTabs := List (String × List TabEntry)

structure TabData : Type where
  title : String
  url : String
  note : Option String
  group : String
  deriving DecidableEq, Repr

/-- `saveTab(tabData)` (storage.js 107-137): creates the group if it does not
exist, then pushes a new entry onto it.  `newId` stands for
`Date.now().toString()` and `now` for `new Date().toISOString()`. -/
def saveTab (savedTabs : SavedTabs) (tabData : TabData) (newId now : String) :
    SavedTabs :=
  let entry : TabEntry :=
    { id := newId
      title := jsTrim tabData.title
      url := jsTrim tabData.url
      note := match tabData.note with
              | some n => jsTrim n
              | none => ""
      savedAt := now }
  match lookupKV savedTabs tabData.group with
  | some tabs => setKV savedTabs tabData.group (tabs ++ [entry])
  | none => savedTabs ++ [(tabData.group, [entry])]

/-- `deleteSavedTab(groupName, tabId)` (storage.js 145-166): filters the tab
out of its group and removes the group key entirely when the group becomes
empty. -/
def deleteSavedTab (savedTabs : SavedTabs) (groupName tabId : String) :
    SavedTabs :=
  match lookupKV savedTabs groupName with
  | none => savedTabs
  | some tabs =>
      if (tabs.filter (fun tab => tab.id ≠ tabId)).length = 0 then
        removeKV savedTabs groupName
      else setKV savedTabs groupName (tabs.filter (fun tab => tab.id ≠ tabId))

/-- The implicit invariant of the grouped store: every group entry present in
storage carries a non-empty list of tabs.  (JS objects cannot carry duplicate
keys, so quantifying over entries is the object-level statement.) -/
def GroupsNonEmpty (savedTabs : SavedTabs) : Prop :=
  ∀ p ∈ savedTabs, p.2 ≠ ([] : List TabEntry)

theorem mem_setKV {α : Type} (l : List (String × α)) (key : String) (v : α)
    (p : String × α) (hp : p ∈ setKV l key v) : p ∈ l ∨ p = (key, v) := by
  induction l with
  | nil =>
      simp [setKV] at hp
      exact Or.inr hp
  | cons hd tl ih =>
      obtain ⟨k, w⟩ := hd
      by_cases h : k = key
      · subst h
        simp [setKV] at hp
        rcases hp with hp | hp
        · exact Or.inr (by simp [hp])
        · exact Or.inl (List.mem_cons_of_mem _ hp)
      · simp [setKV, h] at hp
        rcases hp with hp | hp
        · exact Or.inl (by simp [hp])
        · rcases ih hp with h' | h'
          · exact Or.inl (List.mem_cons_of_mem _ h')
          · exact Or.inr h'

theorem mem_removeKV {α : Type} (l : List (String × α)) (key : String)
    (p : String × α) (hp : p ∈ removeKV l key) : p ∈ l := by
  induction l with
  | nil => simp [removeKV] at hp
  | cons hd tl ih =>
      obtain ⟨k, w⟩ := hd
      by_cases h : k = key
      · simp [removeKV, h] at hp
        exact List.mem_cons_of_mem _ hp
      · simp [removeKV, h] at hp
        rcases hp with hp | hp
        · exact by simp [hp]
        · exact List.mem_cons_of_mem _ (ih hp)

theorem saveTab_preserves_groupsNonEmpty
    (savedTabs : SavedTabs) (tabData : TabData) (newId now : String)
    (hinv : GroupsNonEmpty savedTabs) :
    GroupsNonEmpty (saveTab savedTabs tabData newId now) := by
  intro p hp
  unfold saveTab at hp
  cases hfound : lookupKV savedTabs tabData.group with
  | some old =>
      rw [hfound] at hp
      rcases mem_setKV _ _ _ _ hp with h | h
      · exact hinv p h
      · rw [h]
        simp
  | none =>
      rw [hfound] at hp
      simp only [List.mem_append] at hp
      rcases hp with h | h
      · exact hinv p h
      · simp at h
        rw [h]
        simp

theorem deleteSavedTab_preserves_groupsNonEmpty
    (savedTabs : SavedTabs) (groupName tabId : String)
    (hinv : GroupsNonEmpty savedTabs) :
    GroupsNonEmpty (deleteSavedTab savedTabs groupName tabId) := by
  intro p hp
  unfold deleteSavedTab at hp
  split at hp
  · exact hinv p hp
  · rename_i tabs heq
    split at hp
    · exact hinv p (mem_removeKV _ _ _ hp)
    · rename_i hempty
      rcases mem_setKV _ _ _ _ hp with h | h
      · exact hinv p h
      · have hne : (tabs.filter (fun tab => tab.id ≠ tabId)) ≠ [] := by
          intro hnil
          exact hempty (by rw [hnil]; rfl)
        rw [h]
        exact hne

end TaskEx

namespace TaskEx

/-- **C9** — Round-trip identity of the key-value store wrapper: on a
non-failing store, `setStorageData({k: v})` followed by `getStorageData(k)`
returns a mapping whose entry for `k` equals `v`. -/
theorem setStorageData_getStorageData_roundtrip
    (st : ChromeStorage) (k : String) (v : JVal) (hok : st.failing = false) :
    ∃ st' : ChromeStorage,
      setStorageData st [(k, v)] = Except.ok st' ∧
      getStorageData st' k = Except.ok [(k, v)] := by
  refine ⟨chromeSet st [(k, v)], ?_, ?_⟩
  · simp [setStorageData, hok]
  · have hfail : (chromeSet st [(k, v)]).failing = false := hok
    simp only [getStorageData, hfail, Bool.false_eq_true, if_false]
    simp [chromeGet, chromeSet, lookupKV_setKV_self]

/-- Witness for C9 at a concrete store and value. -/
theorem setStorageData_getStorageData_roundtrip_witness :
    ∃ st' : ChromeStorage,
      setStorageData ⟨[("theme", JVal.str "light")], false⟩ [("timeFormat", JVal.str "24h")]
        = Except.ok st' ∧
      getStorageData st' "timeFormat" = Except.ok [("timeFormat", JVal.str "24h")] :=
  setStorageData_getStorageData_roundtrip
    ⟨[("theme", JVal.str "light")], false⟩ "timeFormat" (JVal.str "24h") rfl

/-- **C10** — Invariant of the grouped saved-tabs store: if every group
present in storage contains at least one tab, then after either operation
(`saveTab`, which only creates a group when adding a tab to it, and
`deleteSavedTab`, which removes the group key when the deleted tab was the
last one) every group present in storage still contains at least one tab. -/
theorem savedTabs_no_empty_group_invariant
    (savedTabs : SavedTabs) (tabData : TabData) (newId now groupName tabId : String)
    (hinv : GroupsNonEmpty savedTabs) :
    GroupsNonEmpty (saveTab savedTabs tabData newId now) ∧
    GroupsNonEmpty (deleteSavedTab savedTabs groupName tabId) :=
  ⟨saveTab_preserves_groupsNonEmpty savedTabs tabData newId now hinv,
   deleteSavedTab_preserves_groupsNonEmpty savedTabs groupName tabId hinv⟩

/-- Witness for C10 at a concrete store: a one-tab group, saving into a fresh
group and deleting the last tab of the existing group. -/
theorem savedTabs_no_empty_group_invariant_witness :
    GroupsNonEmpty
      (saveTab [("Work", [⟨"1", "Docs", "https://docs", "", "t0"⟩])]
        ⟨"News", "https://news", none, "General"⟩ "2" "t1") ∧
    GroupsNonEmpty
      (deleteSavedTab [("Work", [⟨"1", "Docs", "https://docs", "", "t0"⟩])] "Work" "1") :=
  savedTabs_no_empty_group_invariant
    [("Work", [⟨"1", "Docs", "https://docs", "", "t0"⟩])]
    ⟨"News", "https://news", none, "General"⟩ "2" "t1" "Work" "1"
    (by intro p hp; simp at hp; rw [hp]; simp)

end TaskEx

namespace TaskEx

/-! ## CredentialBroker — `getToken` (background.js 22-40)

`chrome.identity.getAuthToken({ interactive }, cb)` invokes the callback with
an optional token; `chrome.runtime.lastError` may be set on platform error,
user cancellation or network failure.  `getToken` wraps the callback in a
promise that only ever resolves. -/

/-- What the platform identity API hands to the `getAuthToken` callback. -/
structure IdentityCallback : Type where
  /-- `chrome.runtime.lastError`, when the platform reports a failure. -/
  lastError : Option String
  /-- the token argument of the callback (`undefined` embedded as `none`). -/
  token : Option String
  deriving DecidableEq, Repr

/-- Outcome of a JS promise-returning call: it either resolves with a value
or ends in a thrown/unhandled rejection. -/
inductive JsOutcome (α : Type) : Type where
  | resolved (a : α) : JsOutcome α
  | thrown (e : String) : JsOutcome α
  deriving DecidableEq, Repr

/-- JS truthiness of the callback's `token` argument (`undefined` and the
empty string are falsy). -/
def tokenTruthy : Option String → Bool
  | none => false
  | some t => t ≠ ""

/-- `getToken(interactive)` (background.js 22-40): resolves `null` when
`chrome.runtime.lastError` is set, resolves the token when one was received,
and resolves `null` otherwise — no branch rejects or throws. -/
def getToken (_interactive : Bool) (cb : IdentityCallback) :
    JsOutcome (Option String) :=
  if cb.lastError.isSome then JsOutcome.resolved none
  else if tokenTruthy cb.token then JsOutcome.resolved cb.token
  else JsOutcome.resolved none

/-- **C8** — `getToken` never throws: for every platform callback outcome the
promise resolves, and on every failure path (platform error reported via
`lastError`, or no/empty token from cancellation or network failure) it
resolves to `none`. -/
theorem getToken_never_throws (interactive : Bool) (cb : IdentityCallback) :
    (∃ v, getToken interactive cb = JsOutcome.resolved v) ∧
    (cb.lastError.isSome = true ∨ tokenTruthy cb.token = false →
      getToken interactive cb = JsOutcome.resolved none) := by
  constructor
  · unfold getToken
    by_cases h1 : cb.lastError.isSome
    · exact ⟨none, by simp [h1]⟩
    · by_cases h2 : tokenTruthy cb.token
      · exact ⟨cb.token, by simp [h1, h2]⟩
      · exact ⟨none, by simp [h1, h2]⟩
  · intro hfail
    unfold getToken
    rcases hfail with h | h
    · simp [h]
    · by_cases h1 : cb.lastError.isSome
      · simp [h1]
      · simp [h1, h]

/-- Witness for C8: a platform-error callback resolves to `none`. -/
theorem getToken_never_throws_witness :
    getToken false ⟨some "OAuth2 not granted or revoked.", none⟩
      = JsOutcome.resolved none :=
  (getToken_never_throws false ⟨some "OAuth2 not granted or revoked.", none⟩).2
    (Or.inl rfl)

/-! ## RemoteResourceClient — `apiRequest` status mapping (sidepanel 157-202)

The spec's typed error taxonomy (§7); `apiRequest` realises each kind as a
fixed user-facing message plus the numeric `error.status`. -/

inductive ErrorKind : Type where
  | authRequired : ErrorKind
  | authExpired : ErrorKind
  | permissionDenied : ErrorKind
  | notFound : ErrorKind
  | rateLimited : ErrorKind
  | providerUnavailable : ErrorKind
  | requestFailed (status : Nat) : ErrorKind
  deriving DecidableEq, Repr

/-- `response.ok`: status in the inclusive range 200-299. -/
def statusOk (status : Nat) : Bool :=
  200 ≤ status && status ≤ 299

/-- The status-to-error branch chain of `apiRequest` (sidepanel 166-180),
abstracted to the taxonomy: each branch below is the branch producing the
corresponding message in the source (401 → "login has expired",
403 → "Permission denied", 404 → "Resource not found", 429 → "Too many
requests", ≥500 → "temporarily unavailable", otherwise "Request failed:
status statusText"). -/
def statusErrorKind (status : Nat) : ErrorKind :=
  if status = 401 then ErrorKind.authExpired
  else if status = 403 then ErrorKind.permissionDenied
  else if status = 404 then ErrorKind.notFound
  else if status = 429 then ErrorKind.rateLimited
  else if 500 ≤ status then ErrorKind.providerUnavailable
  else ErrorKind.requestFailed status

/-- The exact user-facing message `apiRequest` builds for a non-ok status
(sidepanel 167-180). -/
def apiErrorMessage (status : Nat) (statusText : String) : String :=
  if status = 401 then
    "Your Google login has expired. Please log out and log back in."
  else if status = 403 then
    "Permission denied. Please check your Google permissions."
  else if status = 404 then
    "Resource not found. It may have been deleted."
  else if status = 429 then
    "Too many requests. Please wait a moment and try again."
  else if 500 ≤ status then
    "Google services are temporarily unavailable. Please try again later."
  else
    "Request failed: " ++ toString status ++ " " ++ statusText

/-- The `response.ok` gate of `apiRequest`: a 2xx response proceeds, any
other status throws the mapped error. -/
def apiRequestStatusOutcome (status : Nat) : Except ErrorKind Unit :=
  if statusOk status then Except.ok () else Except.error (statusErrorKind status)

/-- **C7** — For every remote request completing with a non-2xx HTTP status
(valid statuses range over 100-599), the resulting error is exactly:
401 → AuthExpired, 403 → PermissionDenied, 404 → NotFound, 429 → RateLimited,
5xx → ProviderUnavailable, any other non-2xx → RequestFailed with that
status. -/
theorem apiRequest_status_error_mapping (s : Nat)
    (hval : 100 ≤ s ∧ s ≤ 599) (hnot2xx : statusOk s = false) :
    (s = 401 → apiRequestStatusOutcome s = Except.error ErrorKind.authExpired) ∧
    (s = 403 → apiRequestStatusOutcome s = Except.error ErrorKind.permissionDenied) ∧
    (s = 404 → apiRequestStatusOutcome s = Except.error ErrorKind.notFound) ∧
    (s = 429 → apiRequestStatusOutcome s = Except.error ErrorKind.rateLimited) ∧
    (500 ≤ s → apiRequestStatusOutcome s = Except.error ErrorKind.providerUnavailable) ∧
    (s ≠ 401 → s ≠ 403 → s ≠ 404 → s ≠ 429 → s < 500 →
      apiRequestStatusOutcome s = Except.error (ErrorKind.requestFailed s)) := by
  have hout : apiRequestStatusOutcome s = Except.error (statusErrorKind s) := by
    unfold apiRequestStatusOutcome
    rw [hnot2xx]
    rfl
  refine ⟨?_, ?_, ?_, ?_, ?_, ?_⟩
  · intro h; subst h; rfl
  · intro h; subst h; rfl
  · intro h; subst h; rfl
  · intro h; subst h; rfl
  · intro h500
    rw [hout]
    have h1 : s ≠ 401 := by omega
    have h2 : s ≠ 403 := by omega
    have h3 : s ≠ 404 := by omega
    have h4 : s ≠ 429 := by omega
    simp [statusErrorKind, h1, h2, h3, h4, h500]
  · intro h1 h2 h3 h4 h5
    rw [hout]
    have h5' : ¬ 500 ≤ s := by omega
    simp [statusErrorKind, h1, h2, h3, h4, h5']

/-- Witness for C7 at concrete statuses 503 (5xx) and 418 (other non-2xx). -/
theorem apiRequest_status_error_mapping_witness :
    apiRequestStatusOutcome 503 = Except.error ErrorKind.providerUnavailable ∧
    apiRequestStatusOutcome 418 = Except.error (ErrorKind.requestFailed 418) :=
  ⟨(apiRequest_status_error_mapping 503 (by decide) (by decide)).2.2.2.2.1 (by decide),
   (apiRequest_status_error_mapping 418 (by decide) (by decide)).2.2.2.2.2
     (by decide) (by decide) (by decide) (by decide) (by decide)⟩

end TaskEx

namespace TaskEx

/-! ## Side-panel session state (sidepanel globals + handlers)

The side panel's module-level mutable state: `isAuthenticated`,
`currentTasks`, `currentEvents`, `starredTasks`, plus the DOM regions it
writes.  Each `innerHTML` assignment in the source corresponds to one
constructor of `ListView`:
`loading` ↔ the "Loading ..." div, `loginPrompt` ↔ the "Please log in ..."
placeholder written by `showLoginPrompt`, `errorMessage m` ↔ the
error-message div carrying `m`, `rendered xs` ↔ the list markup produced by
`renderTasks`/`renderEvents` from `xs`, `cleared` ↔ `innerHTML = ''`. -/

structure GTask : Type where
  id : String
  title : String
  notes : Option String
  due : Option String
  status : String
  deriving DecidableEq, Repr

structure GEvent : Type where
  id : String
  summary : String
  description : Option String
  start : String
  finish : String
  deriving DecidableEq, Repr

inductive ListView (α : Type) : Type where
  | initial : ListView α
  | loading : ListView α
  | loginPrompt : ListView α
  | errorMessage (msg : String) : ListView α
  | rendered (items : List α) : ListView α
  | cleared : ListView α
  deriving DecidableEq, Repr

structure PanelState : Type where
  isAuthenticated : Bool
  currentTasks : List GTask
  currentEvents : List GEvent
  starredTasks : List String
  tasksView : ListView GTask
  eventsView : ListView GEvent
  footerLoggedIn : Bool
  statusNote : Option String
  deriving DecidableEq, Repr

/-- `updateFooterAuthStatus()`: repaints the footer dot/button from the
current `isAuthenticated` flag. -/
def updateFooterAuthStatus (s : PanelState) : PanelState :=
  { s with footerLoggedIn := s.isAuthenticated }

/-- `showLoginPrompt()` (sidepanel 276-296): writes the "Please log in"
placeholder into both the tasks list and the events list. -/
def showLoginPrompt (s : PanelState) : PanelState :=
  { s with tasksView := ListView.loginPrompt, eventsView := ListView.loginPrompt }

/-- `showError(msg)` / `showStatus(msg)`: the transient banner. -/
def showNote (msg : String) (s : PanelState) : PanelState :=
  { s with statusNote := some msg }

/-- The `errorMsg.includes('Authentication required') ||
errorMsg.includes('401') || errorMsg.includes('expired')` test used by both
fetch handlers to detect token expiry. -/
def msgIsAuthExpiry (m : String) : Bool :=
  strIncludes m "Authentication required" || strIncludes m "401" ||
    strIncludes m "expired"

/-- The response object `chrome.runtime.sendMessage({action:'getTasks'})`
delivers back to the side panel. -/
structure TasksResponse : Type where
  success : Bool
  tasks : Option (List GTask)
  error : Option String
  deriving DecidableEq, Repr

/-- `getTasks()` dispatch prefix (sidepanel 785-801): when not
authenticated, show the login prompt and stop; otherwise show the loading
indicator (and send the request). -/
def getTasksBegin (s : PanelState) : PanelState :=
  if s.isAuthenticated then { s with tasksView := ListView.loading }
  else showLoginPrompt s

/-- The `getTasks` response callback (sidepanel 804-843).  On success the
fetched array replaces `currentTasks` and is rendered.  On failure the
expiry/permission/network branches run, and afterwards the tasks list is
unconditionally overwritten with the "Failed to load tasks" error div. -/
def getTasksOnResponse (s : PanelState) (resp : TasksResponse) : PanelState :=
  if resp.success then
    let tasks := resp.tasks.getD []
    { s with currentTasks := tasks, tasksView := ListView.rendered tasks }
  else
    let errorMsg := resp.error.getD "Unknown error"
    let s1 :=
      if msgIsAuthExpiry errorMsg then
        showNote "Your Google login has expired. Please log in again."
          (showLoginPrompt (updateFooterAuthStatus { s with isAuthenticated := false }))
      else if strIncludes errorMsg "403" || strIncludes errorMsg "forbidden" then
        showNote "Permission denied. Please check your Google Tasks permissions." s
      else if strIncludes errorMsg "network" || strIncludes errorMsg "fetch" then
        showNote "Could not connect to Google Tasks. Please check your internet connection." s
      else
        showNote ("Could not load tasks: " ++ errorMsg) s
    { s1 with tasksView := ListView.errorMessage "Failed to load tasks" }

/-- `getEvents()` dispatch prefix (sidepanel 2264-2275): when not
authenticated, `showEventsError` writes the login message into the events
list; otherwise the loading indicator is shown. -/
def getEventsBegin (s : PanelState) : PanelState :=
  if s.isAuthenticated then { s with eventsView := ListView.loading }
  else
    { s with eventsView :=
        ListView.errorMessage "Please log in to Google to view your calendar events." }

/-- The `getEvents` success path (sidepanel 2278-2281): `data.items || []`
replaces `currentEvents` and is rendered. -/
def getEventsOnSuccess (s : PanelState) (items : Option (List GEvent)) :
    PanelState :=
  let evs := items.getD []
  { s with currentEvents := evs, eventsView := ListView.rendered evs }

/-- The `getEvents` catch branch (sidepanel 2282-2300): on an expiry message
the session flag is dropped, the footer repainted, the login prompt shown,
then `showEventsError` overwrites the events list with the expiry error. -/
def getEventsOnFailure (s : PanelState) (errMessage : Option String) :
    PanelState :=
  let errorMsg := errMessage.getD "Unknown error"
  if msgIsAuthExpiry errorMsg then
    let s1 := showLoginPrompt (updateFooterAuthStatus { s with isAuthenticated := false })
    { s1 with eventsView :=
        ListView.errorMessage "Your Google login has expired. Please log in again." }
  else if strIncludes errorMsg "403" || strIncludes errorMsg "forbidden" then
    { s with eventsView :=
        ListView.errorMessage "Permission denied. Please check your Google Calendar permissions." }
  else if strIncludes errorMsg "network" || strIncludes errorMsg "fetch" then
    { s with eventsView :=
        ListView.errorMessage "Could not connect to Google Calendar. Please check your internet connection." }
  else
    { s with eventsView := ListView.errorMessage errorMsg }

/-- `handleLogout` success callback (sidepanel 367-389): flag down, footer
repainted, caches emptied, login prompts written, then both lists cleared
outright, then the success banner. -/
def handleLogoutSuccess (s : PanelState) : PanelState :=
  let s1 := updateFooterAuthStatus { s with isAuthenticated := false }
  let s2 := { s1 with currentTasks := [], currentEvents := [] }
  let s3 := showLoginPrompt s2
  let s4 := { s3 with tasksView := ListView.cleared, eventsView := ListView.cleared }
  showNote "Logged out successfully" s4

/-- `handleLogin` success callback prefix (sidepanel 314-330): flag up and
footer repainted (the task/event fetches it then dispatches are modelled by
`getTasksBegin`/`getEventsBegin`). -/
def handleLoginSuccess (s : PanelState) : PanelState :=
  updateFooterAuthStatus
    { s with isAuthenticated := true, statusNote := some "Login successful!" }

/-! ## Whole-system state: panel + local storage + platform token cache -/

structure SavedLink : Type where
  id : String
  title : String
  url : String
  note : String
  group : String
  starred : Bool
  deriving DecidableEq, Repr

/-- The persisted keys the LinkHive/starring features use. -/
structure LocalStorageState : Type where
  starredTasks : List String
  linkHiveItems : List SavedLink
  savedTabs : SavedTabs
  deriving DecidableEq, Repr

structure World : Type where
  panel : PanelState
  storage : LocalStorageState
  platformToken : Option String
  deriving DecidableEq, Repr

/-- Platform identity service, silent mode (environment model, spec §4.1 and
glossary: non-interactive acquisition returns the cached credential and
fails fast when none is cached). -/
def platformAcquireSilent (cache : Option String) : Option String :=
  cache

/-- `signOut()` (background.js 46-68): with no cached token it returns
immediately; otherwise best-effort remote revocation followed by
`chrome.identity.removeCachedAuthToken`, emptying the cache. -/
def signOut (cache : Option String) : Option String :=
  match cache with
  | none => cache
  | some _ => none

/-- The whole logout round trip: the background `signOut` empties the
platform token cache and the side-panel success callback runs.  Neither
touches `chrome.storage.local`. -/
def handleLogoutWorld (w : World) : World :=
  { w with platformToken := signOut w.platformToken,
           panel := handleLogoutSuccess w.panel }

/-- A task fetch completing with a failure while the world is in state `w`:
only the side-panel response callback runs; nothing in it touches the
platform token cache (sidepanel 823-829 contains no
`removeCachedAuthToken`/logout call). -/
def worldTasksFetchFailure (w : World) (errorMsg : String) : World :=
  { w with panel := getTasksOnResponse w.panel ⟨false, none, some errorMsg⟩ }

/-- The error message background `getTasks` throws for a non-ok response
(background.js 103). -/
def tasksApiErrorMessage (status : Nat) (statusText : String) : String :=
  "Tasks API error: " ++ toString status ++ " " ++ statusText

end TaskEx

namespace TaskEx

/-! ## LinkHive saved-link form (savetab module bundled in background.js)

`handleSaveTabFormSubmit` (1326-1376) reads the form fields, validates, and
hands a form-data record to `saveOrUpdateSavedTab` (1689-1706), which pushes
a fresh link (or updates the matching one in place) onto the flat
`savedTabsCache` array and persists it.  `renderSavedTabs` (1435-1455)
groups the flat list by `(it.group || 'General').trim()`. -/

structure SaveTabForm : Type where
  editingId : String
  title : String
  note : String
  url : String
  group : String
  deriving DecidableEq, Repr

/-- `saveOrUpdateSavedTab(formData)` (1689-1706). -/
def saveOrUpdateSavedTab (cache : List SavedLink) (editingId : Option String)
    (title note url group freshId : String) : List SavedLink :=
  match editingId with
  | some eid =>
      cache.map (fun it =>
        if it.id = eid then
          { it with title := title, note := note, url := url, group := group }
        else it)
  | none =>
      cache ++ [{ id := freshId, title := title, url := url, note := note,
                  group := group, starred := false }]

/-- `handleSaveTabFormSubmit(event)` (1326-1376): trims title/note/url,
rejects an empty title or url, defaults an empty group selector value to
`"General"`, then runs `saveOrUpdateSavedTab`.  `none` models the
early-return validation failures. -/
def handleSaveTabFormSubmit (cache : List SavedLink) (form : SaveTabForm)
    (freshId : String) : Option (List SavedLink) :=
  let editingId := jsTrim form.editingId
  let title := jsTrim form.title
  let note := jsTrim form.note
  let url := jsTrim form.url
  let group := if form.group = "" then "General" else form.group
  if title = "" then none
  else if url = "" then none
  else
    some (saveOrUpdateSavedTab cache
      (if editingId = "" then none else some editingId)
      title note url group freshId)

/-- The group key `renderSavedTabs` files a link under (1441-1445):
`(it.group || 'General').trim()`. -/
def renderGroupKey (g : String) : String :=
  jsTrim (if g = "" then "General" else g)

end TaskEx

namespace TaskEx

/-! ## Request credential-acquisition gates (for the AuthRequired contract) -/

/-- What a request does before (and instead of) touching the network. -/
inductive ReqOutcome : Type where
  | failed (e : ErrorKind) : ReqOutcome
  | proceeding (token : String) : ReqOutcome
  deriving DecidableEq, Repr

structure AuthTrace : Type where
  interactiveMode : Bool
  networkCalled : Bool
  outcome : ReqOutcome
  deriving DecidableEq, Repr

/-- The credential prefix of the side-panel `apiRequest` (sidepanel 89-98):
`chrome.identity.getAuthToken({interactive: false}, ...)`; when
`chrome.runtime.lastError` is set or no token arrives it rejects with the
AUTH_REQUIRED error before building any request. -/
def apiRequestAuthPrefix (cb : IdentityCallback) : AuthTrace :=
  if cb.lastError.isSome || !(tokenTruthy cb.token) then
    { interactiveMode := false, networkCalled := false,
      outcome := ReqOutcome.failed ErrorKind.authRequired }
  else
    { interactiveMode := false, networkCalled := true,
      outcome := ReqOutcome.proceeding (cb.token.getD "") }

/-- The credential prefix of the background `getTasks` (background.js
87-109): `await getToken(true)` — the interactive flag is hard-coded `true`;
with no token it throws 'Authentication required' before the fetch. -/
def bgGetTasksAuthPrefix (cb : IdentityCallback) : AuthTrace :=
  match getToken true cb with
  | JsOutcome.resolved (some tok) =>
      { interactiveMode := true, networkCalled := true,
        outcome := ReqOutcome.proceeding tok }
  | _ =>
      { interactiveMode := true, networkCalled := false,
        outcome := ReqOutcome.failed ErrorKind.authRequired }

/-! ## Concrete fixtures shared by the session-layer theorems -/

def sampleTask : GTask :=
  { id := "t1", title := "Buy milk", notes := none, due := none,
    status := "needsAction" }

def sampleEvent : GEvent :=
  { id := "e1", summary := "Standup", description := none,
    start := "2025-10-06T09:00:00Z", finish := "2025-10-06T09:15:00Z" }

def loggedInPanel : PanelState :=
  { isAuthenticated := true
    currentTasks := [sampleTask]
    currentEvents := [sampleEvent]
    starredTasks := ["t1"]
    tasksView := ListView.loading
    eventsView := ListView.initial
    footerLoggedIn := true
    statusNote := none }

def loggedOutPanel : PanelState :=
  { isAuthenticated := false
    currentTasks := []
    currentEvents := []
    starredTasks := ["t1"]
    tasksView := ListView.cleared
    eventsView := ListView.cleared
    footerLoggedIn := false
    statusNote := none }

def expiredWorld : World :=
  { panel := loggedInPanel
    storage := { starredTasks := ["t1"], linkHiveItems := [], savedTabs := [] }
    platformToken := some "ya29.expired-token" }

end TaskEx

namespace TaskEx

/-- **C1 counterexample** — A logged-in panel whose task fetch completes with
HTTP 401 (message "Tasks API error: 401 Unauthorized" from the background
fetch): the handler drops the authenticated flag, but the cached task and
event collections are left unchanged (non-empty) — they are not cleared —
and the tasks list ends on the "Failed to load tasks" error div rather than
the login placeholder. -/
theorem taskFetch401_caches_not_cleared_counterexample :
    (getTasksOnResponse loggedInPanel
        ⟨false, none, some (tasksApiErrorMessage 401 "Unauthorized")⟩).isAuthenticated
      = false ∧
    (getTasksOnResponse loggedInPanel
        ⟨false, none, some (tasksApiErrorMessage 401 "Unauthorized")⟩).currentTasks
      = [sampleTask] ∧
    (getTasksOnResponse loggedInPanel
        ⟨false, none, some (tasksApiErrorMessage 401 "Unauthorized")⟩).currentEvents
      = [sampleEvent] ∧
    (getTasksOnResponse loggedInPanel
        ⟨false, none, some (tasksApiErrorMessage 401 "Unauthorized")⟩).tasksView
      = ListView.errorMessage "Failed to load tasks" := by
  decide

/-- **C1 (amended)** — When a task or event fetch of a logged-in session
completes with an expiry-indicating error (HTTP 401), the handler sets the
authenticated flag to false and repaints the footer, leaves the cached task
and event collections unchanged, writes the login placeholder into the list
it did not fetch, and overwrites the fetched list with the expiry error
message — all as a total function (no branch throws). -/
theorem fetch401_handler_behaviour (s : PanelState) (resp : TasksResponse)
    (m : String) (_hauth : s.isAuthenticated = true) (hfail : resp.success = false)
    (herr : resp.error = some m) (hexp : msgIsAuthExpiry m = true) :
    (getTasksOnResponse s resp).isAuthenticated = false ∧
    (getTasksOnResponse s resp).footerLoggedIn = false ∧
    (getTasksOnResponse s resp).currentTasks = s.currentTasks ∧
    (getTasksOnResponse s resp).currentEvents = s.currentEvents ∧
    (getTasksOnResponse s resp).eventsView = ListView.loginPrompt ∧
    (getTasksOnResponse s resp).tasksView
      = ListView.errorMessage "Failed to load tasks" ∧
    (getTasksOnResponse s resp).statusNote
      = some "Your Google login has expired. Please log in again." ∧
    (getEventsOnFailure s (some m)).isAuthenticated = false ∧
    (getEventsOnFailure s (some m)).footerLoggedIn = false ∧
    (getEventsOnFailure s (some m)).currentTasks = s.currentTasks ∧
    (getEventsOnFailure s (some m)).currentEvents = s.currentEvents ∧
    (getEventsOnFailure s (some m)).tasksView = ListView.loginPrompt ∧
    (getEventsOnFailure s (some m)).eventsView
      = ListView.errorMessage "Your Google login has expired. Please log in again." := by
  simp [getTasksOnResponse, getEventsOnFailure, hfail, herr, hexp,
    showNote, showLoginPrompt, updateFooterAuthStatus]

/-- Witness for the amended C1 at the concrete logged-in panel and the
concrete 401 message. -/
theorem fetch401_handler_behaviour_witness :
    (getTasksOnResponse loggedInPanel
        ⟨false, none, some (tasksApiErrorMessage 401 "Unauthorized")⟩).isAuthenticated = false ∧
    (getTasksOnResponse loggedInPanel
        ⟨false, none, some (tasksApiErrorMessage 401 "Unauthorized")⟩).footerLoggedIn = false ∧
    (getTasksOnResponse loggedInPanel
        ⟨false, none, some (tasksApiErrorMessage 401 "Unauthorized")⟩).currentTasks
      = loggedInPanel.currentTasks ∧
    (getTasksOnResponse loggedInPanel
        ⟨false, none, some (tasksApiErrorMessage 401 "Unauthorized")⟩).currentEvents
      = loggedInPanel.currentEvents ∧
    (getTasksOnResponse loggedInPanel
        ⟨false, none, some (tasksApiErrorMessage 401 "Unauthorized")⟩).eventsView
      = ListView.loginPrompt ∧
    (getTasksOnResponse loggedInPanel
        ⟨false, none, some (tasksApiErrorMessage 401 "Unauthorized")⟩).tasksView
      = ListView.errorMessage "Failed to load tasks" ∧
    (getTasksOnResponse loggedInPanel
        ⟨false, none, some (tasksApiErrorMessage 401 "Unauthorized")⟩).statusNote
      = some "Your Google login has expired. Please log in again." ∧
    (getEventsOnFailure loggedInPanel
        (some (tasksApiErrorMessage 401 "Unauthorized"))).isAuthenticated = false ∧
    (getEventsOnFailure loggedInPanel
        (some (tasksApiErrorMessage 401 "Unauthorized"))).footerLoggedIn = false ∧
    (getEventsOnFailure loggedInPanel
        (some (tasksApiErrorMessage 401 "Unauthorized"))).currentTasks
      = loggedInPanel.currentTasks ∧
    (getEventsOnFailure loggedInPanel
        (some (tasksApiErrorMessage 401 "Unauthorized"))).currentEvents
      = loggedInPanel.currentEvents ∧
    (getEventsOnFailure loggedInPanel
        (some (tasksApiErrorMessage 401 "Unauthorized"))).tasksView = ListView.loginPrompt ∧
    (getEventsOnFailure loggedInPanel
        (some (tasksApiErrorMessage 401 "Unauthorized"))).eventsView
      = ListView.errorMessage "Your Google login has expired. Please log in again." :=
  fetch401_handler_behaviour loggedInPanel
    ⟨false, none, some (tasksApiErrorMessage 401 "Unauthorized")⟩
    (tasksApiErrorMessage 401 "Unauthorized") rfl rfl rfl (by decide)

end TaskEx

namespace TaskEx

/-- **C4 counterexample** — A fetch result arriving after logout (session
already logged out, caches cleared) is applied anyway: the success handler
repopulates `currentTasks`/`currentEvents` of the logged-out session —
there is no session check before applying the result. -/
theorem staleResponse_repopulates_cache_counterexample :
    loggedOutPanel.isAuthenticated = false ∧
    loggedOutPanel.currentTasks = [] ∧
    (getTasksOnResponse loggedOutPanel ⟨true, some [sampleTask], none⟩).currentTasks
      = [sampleTask] ∧
    (getTasksOnResponse loggedOutPanel ⟨true, some [sampleTask], none⟩).isAuthenticated
      = false ∧
    (getEventsOnSuccess loggedOutPanel (some [sampleEvent])).currentEvents
      = [sampleEvent] := by
  decide

/-- **C4 (amended)** — The success handlers of the task and event fetches
apply the fetched collections to the caches unconditionally, with no
recheck of the session state: the result is applied whatever
`isAuthenticated` is (the only authentication check happens before the
request is dispatched, in `getTasksBegin`/`getEventsBegin`). -/
theorem fetchResult_applied_without_session_check (s : PanelState)
    (resp : TasksResponse) (ts : List GTask) (evs : List GEvent)
    (hsucc : resp.success = true) (htasks : resp.tasks = some ts) :
    (getTasksOnResponse s resp).currentTasks = ts ∧
    (getTasksOnResponse s resp).isAuthenticated = s.isAuthenticated ∧
    (getTasksOnResponse s resp).tasksView = ListView.rendered ts ∧
    (getEventsOnSuccess s (some evs)).currentEvents = evs ∧
    (getEventsOnSuccess s (some evs)).isAuthenticated = s.isAuthenticated := by
  simp [getTasksOnResponse, getEventsOnSuccess, hsucc, htasks]

/-- Witness for the amended C4: the logged-out panel, a one-task response
and a one-event payload. -/
theorem fetchResult_applied_without_session_check_witness :
    (getTasksOnResponse loggedOutPanel ⟨true, some [sampleTask], none⟩).currentTasks
      = [sampleTask] ∧
    (getTasksOnResponse loggedOutPanel ⟨true, some [sampleTask], none⟩).isAuthenticated
      = loggedOutPanel.isAuthenticated ∧
    (getTasksOnResponse loggedOutPanel ⟨true, some [sampleTask], none⟩).tasksView
      = ListView.rendered [sampleTask] ∧
    (getEventsOnSuccess loggedOutPanel (some [sampleEvent])).currentEvents
      = [sampleEvent] ∧
    (getEventsOnSuccess loggedOutPanel (some [sampleEvent])).isAuthenticated
      = loggedOutPanel.isAuthenticated :=
  fetchResult_applied_without_session_check loggedOutPanel
    ⟨true, some [sampleTask], none⟩ [sampleTask] [sampleEvent] rfl rfl

/-- **C2 counterexample** — With an expired credential in the platform cache,
a task fetch yields HTTP 401 and the handler runs its expiry branch (the
authenticated flag drops), yet a subsequent non-interactive acquisition
returns the very same expired credential: nothing evicted it. -/
theorem authExpired_token_not_evicted_counterexample :
    (worldTasksFetchFailure expiredWorld
        (tasksApiErrorMessage 401 "Unauthorized")).panel.isAuthenticated = false ∧
    platformAcquireSilent
        (worldTasksFetchFailure expiredWorld
          (tasksApiErrorMessage 401 "Unauthorized")).platformToken
      = some "ya29.expired-token" := by
  decide

/-- **C2 (amended)** — The AuthExpired (HTTP 401) handler does not evict the
credential from the platform cache: after it runs, `acquire(false)` still
returns the same credential.  Eviction happens only through the explicit
`signOut` of a logout, after which `acquire(false)` returns `none`. -/
theorem authExpired_eviction_only_on_signOut (w : World) (errorMsg : String) :
    (worldTasksFetchFailure w errorMsg).platformToken = w.platformToken ∧
    platformAcquireSilent (worldTasksFetchFailure w errorMsg).platformToken
      = w.platformToken ∧
    signOut w.platformToken = none ∧
    platformAcquireSilent (signOut w.platformToken) = none := by
  refine ⟨rfl, rfl, ?_, ?_⟩
  · cases w.platformToken <;> rfl
  · cases w.platformToken <;> rfl

/-- **C3 counterexample** — The background `getTasks` (the request path the
side-panel task list actually uses) obtains its credential with the
interactive flag hard-coded to `true`, not in non-interactive mode. -/
theorem bgGetTasks_acquires_interactively_counterexample :
    (bgGetTasksAuthPrefix ⟨none, some "fresh-token"⟩).interactiveMode = true ∧
    (apiRequestAuthPrefix ⟨none, some "fresh-token"⟩).interactiveMode = false := by
  decide

/-- **C3 (amended)** — Every remote request obtains a credential before any
network call and, when none is available, fails immediately with
AuthRequired without any network call being attempted; the side-panel
`apiRequest` acquires in non-interactive mode, while the background request
functions (`getTasks` and friends) acquire in interactive mode. -/
theorem request_auth_gate (cb : IdentityCallback)
    (hnotok : tokenTruthy cb.token = false) :
    (apiRequestAuthPrefix cb).interactiveMode = false ∧
    (bgGetTasksAuthPrefix cb).interactiveMode = true ∧
    (apiRequestAuthPrefix cb).networkCalled = false ∧
    (apiRequestAuthPrefix cb).outcome = ReqOutcome.failed ErrorKind.authRequired ∧
    (bgGetTasksAuthPrefix cb).networkCalled = false ∧
    (bgGetTasksAuthPrefix cb).outcome = ReqOutcome.failed ErrorKind.authRequired := by
  have hapi : apiRequestAuthPrefix cb =
      { interactiveMode := false, networkCalled := false,
        outcome := ReqOutcome.failed ErrorKind.authRequired } := by
    unfold apiRequestAuthPrefix
    simp [hnotok]
  have hbg : bgGetTasksAuthPrefix cb =
      { interactiveMode := true, networkCalled := false,
        outcome := ReqOutcome.failed ErrorKind.authRequired } := by
    unfold bgGetTasksAuthPrefix getToken
    by_cases h : cb.lastError.isSome <;> simp [h, hnotok]
  rw [hapi, hbg]
  exact ⟨rfl, rfl, rfl, rfl, rfl, rfl⟩

/-- Witness for the amended C3: no cached token and no user grant. -/
theorem request_auth_gate_witness :
    (apiRequestAuthPrefix ⟨none, none⟩).interactiveMode = false ∧
    (bgGetTasksAuthPrefix ⟨none, none⟩).interactiveMode = true ∧
    (apiRequestAuthPrefix ⟨none, none⟩).networkCalled = false ∧
    (apiRequestAuthPrefix ⟨none, none⟩).outcome
      = ReqOutcome.failed ErrorKind.authRequired ∧
    (bgGetTasksAuthPrefix ⟨none, none⟩).networkCalled = false ∧
    (bgGetTasksAuthPrefix ⟨none, none⟩).outcome
      = ReqOutcome.failed ErrorKind.authRequired :=
  request_auth_gate ⟨none, none⟩ rfl

/-- **C5** — Logout clears only the in-memory task and event caches: the
persisted starred-task ids, the in-memory starred set and the stored saved
links are unchanged by a logout, and still unchanged after a subsequent
login. -/
theorem logout_preserves_starred_and_links (w : World) :
    (handleLogoutWorld w).storage = w.storage ∧
    (handleLogoutWorld w).panel.starredTasks = w.panel.starredTasks ∧
    (handleLogoutWorld w).panel.currentTasks = [] ∧
    (handleLogoutWorld w).panel.currentEvents = [] ∧
    ({ handleLogoutWorld w with
        panel := handleLoginSuccess (handleLogoutWorld w).panel } : World).storage
      = w.storage ∧
    (handleLoginSuccess (handleLogoutWorld w).panel).starredTasks
      = w.panel.starredTasks :=
  ⟨rfl, rfl, rfl, rfl, rfl, rfl⟩

/-- **C6** — A saved link submitted with an empty group field (create mode,
non-empty title and url) is stored under the group "General", and the
renderer files the key "General" under "General". -/
theorem savedLink_empty_group_defaults_to_general
    (cache : List SavedLink) (form : SaveTabForm) (freshId : String)
    (hgroup : form.group = "") (hnew : jsTrim form.editingId = "")
    (htitle : jsTrim form.title ≠ "") (hurl : jsTrim form.url ≠ "") :
    handleSaveTabFormSubmit cache form freshId =
      some (cache ++
        [{ id := freshId, title := jsTrim form.title, url := jsTrim form.url,
           note := jsTrim form.note, group := "General", starred := false }]) ∧
    renderGroupKey "General" = "General" := by
  constructor
  · unfold handleSaveTabFormSubmit saveOrUpdateSavedTab
    simp [hgroup, hnew, htitle, hurl]
  · decide

/-- Witness for C6: empty form group, concrete title/url. -/
theorem savedLink_empty_group_defaults_to_general_witness :
    handleSaveTabFormSubmit []
        ⟨"", "My title", "a note", "https://example.com", ""⟩ "id1" =
      some ([] ++
        [{ id := "id1", title := jsTrim "My title",
           url := jsTrim "https://example.com", note := jsTrim "a note",
           group := "General", starred := false }]) ∧
    renderGroupKey "General" = "General" :=
  savedLink_empty_group_defaults_to_general []
    ⟨"", "My title", "a note", "https://example.com", ""⟩ "id1"
    rfl (by decide) (by decide) (by decide)

end TaskEx
